import Mathlib

/-!
Verification development for the BridgePy MQTT session manager
(`src/bridgePy/connector.py`, class `Connect`, together with the response
shapes of `src/bridgePy/models.py`).

Topics are modelled as `List Char` (Python strings), payloads as `Nat`
(passed through untouched by the routing core), and registered handler
functions as numeric identifiers.  The external collaborators (paho MQTT
client, identity service) enter the model as function parameters; the code
of the repository itself is translated definition by definition below.
-/

namespace BridgePy

/-- The namespace version marker "v1/" on which `__on_message` and
`__on_subscribe` split topics (`re.split(r"v1/", ...)` in the source). -/
def marker : List Char := ['v', '1', '/']

/-- Models Python `re.split(r"v1/", s)` on a string `s`: split at every
leftmost, non-overlapping occurrence of the three characters v 1 /.  The
result always has at least one element, and has `k+1` elements when the
input holds `k` non-overlapping occurrences of the marker. -/
def splitOnMarker : List Char → List (List Char)
  | [] => [[]]
  | [c] => [[c]]
  | [c, d] => [[c, d]]
  | c :: d :: e :: rest =>
    if c = 'v' && d = '1' && e = '/' then
      [] :: splitOnMarker rest
    else
      (c :: (splitOnMarker (d :: e :: rest)).headD []) :: (splitOnMarker (d :: e :: rest)).tail

/-- True when the list holds no occurrence of the marker "v1/". -/
def noMarkerB : List Char → Bool
  | c :: d :: e :: rest => !(c = 'v' && d = '1' && e = '/') && noMarkerB (d :: e :: rest)
  | _ => true

/-- The topic attribute strings fixed by `__initialize_topics`. -/
def mw_topic : List Char := "prod/marketfeed/mw/v1/".toList

/-- Topic attribute `index_topic` from `__initialize_topics`. -/
def index_topic : List Char := "prod/marketfeed/index/v1/".toList

/-- Topic attribute `oi_topic` from `__initialize_topics`. -/
def oi_topic : List Char := "prod/marketfeed/oi/v1/".toList

/-- Topic attribute `market_status` from `__initialize_topics`. -/
def market_status : List Char := "prod/marketfeed/marketstatus/v1/".toList

/-- Topic attribute `lpp` from `__initialize_topics`. -/
def lpp : List Char := "prod/marketfeed/lpp/v1/".toList

/-- Topic attribute `high_52_week` from `__initialize_topics`. -/
def high_52_week : List Char := "prod/marketfeed/high52week/v1/".toList

/-- Topic attribute `low_52_week` from `__initialize_topics`. -/
def low_52_week : List Char := "prod/marketfeed/low52week/v1/".toList

/-- Topic attribute `upper_circuit` from `__initialize_topics`. -/
def upper_circuit : List Char := "prod/marketfeed/uppercircuit/v1/".toList

/-- Topic attribute `lower_circuit` from `__initialize_topics`. -/
def lower_circuit : List Char := "prod/marketfeed/lowercircuit/v1/".toList

/-- Topic attribute `order_updates` from `__initialize_topics`. -/
def order_updates : List Char := "prod/updates/order/v1/".toList

/-- Topic attribute `trade_updates` from `__initialize_topics`. -/
def trade_updates : List Char := "prod/updates/trade/v1/".toList

/-- The closed set of data categories, one per `subscribe_*` / data-callback
pair of the `Connect` class. -/
inductive Category where
  | feed | index | openInterest | marketStatus | lppCat | high52week | low52week
  | upperCircuit | lowerCircuit | orderUpdates | tradeUpdates
deriving DecidableEq

/-- The topic namespace owned by each category: the attribute the matching
`subscribe_*` method passes to `__subscribe`. -/
def topicOf : Category → List Char
  | .feed => mw_topic
  | .index => index_topic
  | .openInterest => oi_topic
  | .marketStatus => market_status
  | .lppCat => lpp
  | .high52week => high_52_week
  | .low52week => low_52_week
  | .upperCircuit => upper_circuit
  | .lowerCircuit => lower_circuit
  | .orderUpdates => order_updates
  | .tradeUpdates => trade_updates

/-- The topic each data-callback setter actually passes to `__set_callback`.
Every setter passes the attribute of its own category, except the
`on_low_52_week_data_received` setter, which passes `self.high_52_week`
(connector.py line 284). -/
def setterTopic : Category → List Char
  | .feed => mw_topic
  | .index => index_topic
  | .openInterest => oi_topic
  | .marketStatus => market_status
  | .lppCat => lpp
  | .high52week => high_52_week
  | .low52week => high_52_week
  | .upperCircuit => upper_circuit
  | .lowerCircuit => lower_circuit
  | .orderUpdates => order_updates
  | .tradeUpdates => trade_updates

/-- The `__topic_handler` dict: topic namespace string to registered handler
(`None` when a registration was cleared).  A Python dict over string keys,
modelled as a duplicate-free association list where update replaces. -/
abbrev Registry := List (List Char × Option Nat)

/-- Dict write `self.__topic_handler[topic] = func` inside `__set_callback`. -/
def setCallback (reg : Registry) (topic : List Char) (func : Option Nat) : Registry :=
  (topic, func) :: reg.filter (fun e => decide (e.1 ≠ topic))

/-- Dict read `self.__topic_handler.get(key)`: `none` both when the key is
absent and when the stored value is Python `None` (both are falsy at the
dispatch site, so they are collapsed). -/
def getHandler (reg : Registry) (key : List Char) : Option Nat :=
  match reg.find? (fun e => decide (e.1 = key)) with
  | some e => e.2
  | none => none

/-- One data-callback setter invocation for a category: the setter calls
`__set_callback(func, <setter topic>, <attr name>)`, which stores `func`
in the `__topic_handler` dict under the topic it was handed. -/
def registerDataCallback (reg : Registry) (c : Category) (func : Option Nat) : Registry :=
  setCallback reg (setterTopic c) func

/-- Observable outcome of `__on_message` for one inbound message. -/
inductive DispatchResult where
  /-- The handler stored under the recovered namespace was called with
  `(payload, split_topic[1])`. -/
  | invoke (handler : Nat) (payload : Nat) (suffix : List Char)
  /-- `__topic_handler.get(...)` was falsy: the message was dropped. -/
  | drop
  /-- An exception was raised and swallowed by the `except` clause
  (reported to `on_error` when registered). -/
  | errorCaught
deriving DecidableEq

/-- The body of `__on_message(client, userdata, message)`: split the topic on
the marker, rebuild the namespace key as `split_topic[0] + "v1/"`, and call
the handler found there with `(payload, split_topic[1])`; a falsy lookup
drops the message, and an out-of-range `split_topic[1]` raises an
IndexError that the handler's `except` clause swallows. -/
def onMessage (reg : Registry) (topic : List Char) (payload : Nat) : DispatchResult :=
  let split_topic := splitOnMarker topic
  match getHandler reg (split_topic.headD [] ++ marker) with
  | none => .drop
  | some h =>
    match split_topic with
    | _ :: suffix :: _ => .invoke h payload suffix
    | _ => .errorCaught

/-- Models the inline `re.fullmatch(r"^[0-9a-z/]+$", topic)` check of
`_build_subscription_topics` and `_build_unsubscribe_options`: a single
character is accepted exactly when it is an ASCII digit, an ASCII lowercase
letter, or a slash. -/
def isTopicChar (c : Char) : Bool :=
  ('0' ≤ c && c ≤ '9') || ('a' ≤ c && c ≤ 'z') || c = '/'

/-- Whole-suffix validation: `re.fullmatch(r"^[0-9a-z/]+$", s)` succeeds iff
`s` is non-empty and every character is in the class. -/
def fullmatchTopic (s : List Char) : Bool :=
  !s.isEmpty && s.all isTopicChar

/-- Models `ds.SubscribeResult.to_dict()` of models.py: one per-topic entry
`{topic, resultCode, result}` used both in `failedTopics` and in the
subscribe-ack payload. -/
structure SubscribeResult where
  resultCode : Int
  result : String
  topic : List Char
deriving DecidableEq

/-- Models `ds.SubscribeFeedResponse` / `ds.UnsubscribeFeedResponse` of
models.py (both carry the same three fields): `{status, message,
failedTopics}`.  `message` starts out as Python `None`. -/
structure FeedResponse where
  status : Int
  message : Option String
  failedTopics : List SubscribeResult
deriving DecidableEq

/-- Accumulator pair built by `_build_subscription_topics`: the
`valid_topics` list of `(prefixed topic, qos 0)` tuples handed to
`mqttClient.subscribe`, and the `failedTopics` list of the response. -/
structure SubBuild where
  validTopics : List (List Char × Nat)
  failedTopics : List SubscribeResult
deriving DecidableEq

/-- Body of `_build_subscription_topics`: walk `subscriptionList` in order;
a suffix passing `fullmatch` is appended (prefixed, with qos 0) to
`valid_topics`, any other suffix is appended unchanged to `failedTopics`
as `SubscribeResult(104, "Invalid topic", topic)`. -/
def build_subscription_topics (topic_pre : List Char) : List (List Char) → SubBuild
  | [] => ⟨[], []⟩
  | t :: rest =>
    let r := build_subscription_topics topic_pre rest
    if fullmatchTopic t then
      ⟨(topic_pre ++ t, 0) :: r.validTopics, r.failedTopics⟩
    else
      ⟨r.validTopics, ⟨104, "Invalid topic", t⟩ :: r.failedTopics⟩

/-- Accumulator pair built by `_build_unsubscribe_options`: valid topics are
plain prefixed strings (no qos tuple) in the unsubscribe path. -/
structure UnsubBuild where
  validTopics : List (List Char)
  failedTopics : List SubscribeResult
deriving DecidableEq

/-- Body of `_build_unsubscribe_options`: same per-suffix validation as the
subscribe build, but valid topics are collected as bare strings. -/
def build_unsubscribe_options (topic_pre : List Char) : List (List Char) → UnsubBuild
  | [] => ⟨[], []⟩
  | t :: rest =>
    let r := build_unsubscribe_options topic_pre rest
    if fullmatchTopic t then
      ⟨(topic_pre ++ t) :: r.validTopics, r.failedTopics⟩
    else
      ⟨r.validTopics, ⟨104, "Invalid topic", t⟩ :: r.failedTopics⟩

/-- The `self.__subscriptions` dict: transport-assigned message id (`mid`,
from `res[1]` of `mqttClient.subscribe`) to the submitted
`valid_topics` list.  Duplicate-free association list, update replaces. -/
abbrev PendingTable := List (Nat × List (List Char × Nat))

/-- Dict write `self.__subscriptions[mid] = valid_topics`. -/
def subsSet (t : PendingTable) (mid : Nat) (v : List (List Char × Nat)) : PendingTable :=
  (mid, v) :: t.filter (fun e => decide (e.1 ≠ mid))

/-- Dict read `self.__subscriptions.get(mid)` (without the default). -/
def subsGet (t : PendingTable) (mid : Nat) : Option (List (List Char × Nat)) :=
  (t.find? (fun e => decide (e.1 = mid))).map (fun e => e.2)

/-- Dict delete `del self.__subscriptions[mid]`. -/
def subsDel (t : PendingTable) (mid : Nat) : PendingTable :=
  t.filter (fun e => decide (e.1 ≠ mid))

/-- Parse outcome of the JSON request string handed to `__subscribe` /
`__unsubscribe`, covering each control path the Python body distinguishes:
a falsy request string, a `json.JSONDecodeError`, a `KeyError` on the
list key, or a parsed topic list. -/
inductive SubRequest where
  /-- `not req` was true (empty string or None request). -/
  | emptyReq
  /-- `json.loads` raised `JSONDecodeError` with this message. -/
  | badJson (msg : String)
  /-- Indexing `req_data[...]` raised `KeyError` on this key. -/
  | missingKey (key : String)
  /-- The request parsed and the list key mapped to this list of strings. -/
  | ok (topicList : List (List Char))

/-- The apostrophe character, used in the literal `KeyError` message text. -/
def apos : String := String.singleton (Char.ofNat 39)

/-- The f-string built in the `except KeyError` clauses. -/
def keyErrorMsg (key : String) : String :=
  "The parameter " ++ apos ++ key ++ apos ++ " should not be empty"

/-- Everything observable about one `__subscribe` call: the JSON-encoded
response object, the argument of the `mqttClient.subscribe` call when one
was issued, the `__subscriptions` dict afterwards, and the argument that
was (or would be) passed to the `on_error` callback. -/
structure SubscribeOutcome where
  response : FeedResponse
  transportCall : Option (List (List Char × Nat))
  subs : PendingTable
  errorCb : Option (Int × String)
deriving DecidableEq

/-- Body of `__subscribe(req, topic_prefix)`.  The paho client is abstracted
by `tr`, returning the `(res[0].value, res[1])` pair of status code and
message id; `errStr` abstracts `mqtt.error_string`. -/
def pySubscribe (subs0 : PendingTable) (req : SubRequest) (topic_pre : List Char)
    (tr : List (List Char × Nat) → Int × Nat) (errStr : Int → String) : SubscribeOutcome :=
  match req with
  | .emptyReq => ⟨⟨101, some "Request cannot be null", []⟩, none, subs0, none⟩
  | .badJson m =>
    ⟨⟨-1, some ("Invalid JSON: " ++ m), []⟩, none, subs0, some (-1, "Invalid JSON: " ++ m)⟩
  | .missingKey k =>
    ⟨⟨-1, some (keyErrorMsg k), []⟩, none, subs0, some (-1, keyErrorMsg k)⟩
  | .ok lst =>
    if lst.isEmpty || 1024 < lst.length then
      ⟨⟨102, some "TopicList cannot be null and no. of topics should be less than 1024", []⟩,
        none, subs0, none⟩
    else
      let b := build_subscription_topics topic_pre lst
      if b.validTopics.isEmpty then
        ⟨⟨103, some "Subscripton failed", b.failedTopics⟩, none, subs0, none⟩
      else
        let res := tr b.validTopics
        if res.1 = 0 then
          ⟨⟨res.1,
            some (if 0 < b.failedTopics.length then "Subscription partially sent" else errStr res.1),
            b.failedTopics⟩,
            some b.validTopics, subsSet subs0 res.2 b.validTopics, none⟩
        else
          ⟨⟨res.1, some (errStr res.1), b.failedTopics⟩, some b.validTopics, subs0, none⟩

/-- Everything observable about one `__unsubscribe` call.  The
`__subscriptions` dict is carried through to record that this path never
touches it (the source never reads or writes it here). -/
structure UnsubscribeOutcome where
  response : FeedResponse
  transportCall : Option (List (List Char))
  subs : PendingTable
  errorCb : Option (Int × String)
deriving DecidableEq

/-- Body of `__unsubscribe(req, topic_prefix)`.  `tr` abstracts
`mqttClient.unsubscribe`, returning `(res[0].value, res[1])`; the message
id `res[1]` is never used by the source. -/
def pyUnsubscribe (subs0 : PendingTable) (req : SubRequest) (topic_pre : List Char)
    (tr : List (List Char) → Int × Nat) (errStr : Int → String) : UnsubscribeOutcome :=
  match req with
  | .emptyReq => ⟨⟨101, some "Request cannot be null", []⟩, none, subs0, none⟩
  | .badJson m =>
    ⟨⟨-1, some ("Invalid JSON: " ++ m), []⟩, none, subs0, some (-1, "Invalid JSON: " ++ m)⟩
  | .missingKey k =>
    ⟨⟨-1, some (keyErrorMsg k), []⟩, none, subs0, some (-1, keyErrorMsg k)⟩
  | .ok lst =>
    if lst.isEmpty || 1024 < lst.length then
      ⟨⟨102, some "TopicList cannot be null and no. of topics should be less than 1024", []⟩,
        none, subs0, none⟩
    else
      let b := build_unsubscribe_options topic_pre lst
      if b.validTopics.isEmpty then
        ⟨⟨103, some "Unsubscription failed", b.failedTopics⟩, none, subs0, none⟩
      else
        let res := tr b.validTopics
        if res.1 = 0 then
          ⟨⟨res.1,
            some (if 0 < b.failedTopics.length then "Unsubscripton partially sent" else errStr res.1),
            b.failedTopics⟩,
            some b.validTopics, subs0, none⟩
        else
          ⟨⟨res.1, some (errStr res.1), b.failedTopics⟩, some b.validTopics, subs0, none⟩

/-- One iteration of the `__on_subscribe` loop body for a pair of a reason
code and a `(topic, qos)` tuple from the stored `valid_topics` list: build
`SubscribeResult(rc, "Granted"/"Not Granted", re.split(r"v1/", topic[0])[1])`.
`none` models the IndexError raised when the topic string holds no
occurrence of the marker (index 1 is then out of range). -/
def mkSubResult (rc : Int) (tq : List Char × Nat) : Option SubscribeResult :=
  match splitOnMarker tq.1 with
  | _ :: suf :: _ => some ⟨rc, if rc = 0 then "Granted" else "Not Granted", suf⟩
  | _ => none

/-- Run the `__on_subscribe` loop over the zipped pairs; the first raising
iteration aborts the whole handler body (the partial `ls` list is local
and discarded). -/
def collectResults : List (Int × (List Char × Nat)) → Option (List SubscribeResult)
  | [] => some []
  | (rc, tq) :: rest =>
    match mkSubResult rc tq with
    | none => none
    | some r =>
      match collectResults rest with
      | none => none
      | some rs => some (r :: rs)

/-- Observable outcome of `__on_subscribe` for one subscribe-ack. -/
inductive SubAckOutcome where
  /-- `SubscribeAckResponse(packetType, "SUBACK", ls)` was JSON-encoded and
  handed to the acknowledgment callback (when one is registered), with
  the `__subscriptions` dict in the given final state. -/
  | forwarded (packetName : String) (results : List SubscribeResult) (subs : PendingTable)
  /-- Some step raised; the `except` clause swallowed the exception and
  reported it to `on_error` (when registered).  No ack was forwarded and
  the `__subscriptions` dict is in the given final state. -/
  | errorCaught (subs : PendingTable)
deriving DecidableEq

/-- Body of `__on_subscribe(client, userdata, mid, reason_code_list,
properties)`.  When `mid` is absent, `self.__subscriptions.get(mid,
("Unknown", 0))` yields the default tuple: with a non-empty reason list the
first iteration indexes the string "Unknown" and `re.split` of "U" has no
element 1, raising IndexError; with an empty reason list the later
`del self.__subscriptions[mid]` raises KeyError.  Either way the handler
falls to its `except` clause with the dict unchanged.  When `mid` is
present, any IndexError in the loop likewise aborts before the delete; an
empty reason list raises at `reason_code_list[0]` only after the delete. -/
def pyOnSubscribe (subs0 : PendingTable) (mid : Nat) (reason_code_list : List Int) :
    SubAckOutcome :=
  match subsGet subs0 mid with
  | none => .errorCaught subs0
  | some topics =>
    match collectResults (reason_code_list.zip topics) with
    | none => .errorCaught subs0
    | some ls =>
      match reason_code_list with
      | [] => .errorCaught (subsDel subs0 mid)
      | _ :: _ => .forwarded "SUBACK" ls (subsDel subs0 mid)

/-- Models `ds.UnsubscribeAckResponse` of models.py. -/
structure UnsubscribeAckResponse where
  packetType : Int
  packetName : String
  status : Int
  message : String
deriving DecidableEq

/-- Body of `__on_unsubscribe(client, userdata, mid, reason_code_list,
properties)`: unconditionally builds
`UnsubscribeAckResponse(properties.packetType, "UNSUBACK", 0,
"Unsubscribed Successfully")` and hands it to the acknowledgment callback.
Neither `mid` nor `reason_code_list` is read, and the `__subscriptions`
dict is untouched. -/
def pyOnUnsubscribe (mid : Nat) (reason_code_list : List Int) (propsPacketType : Int) :
    UnsubscribeAckResponse :=
  ⟨propsPacketType, "UNSUBACK", 0, "Unsubscribed Successfully"⟩

/-- Parse outcome of the JSON request string handed to `connect_host`. -/
inductive ConnRequest where
  /-- `not conn_req` was true. -/
  | emptyReq
  /-- `json.loads` raised `JSONDecodeError` with this message. -/
  | badJson (msg : String)
  /-- `req_data["token"]` raised `KeyError`. -/
  | missingToken
  /-- The request parsed with these host, port and token fields. -/
  | ok (host : String) (port : Nat) (token : String)

/-- Everything observable about one `connect_host` call, with the
`__subscriptions` dict and `__topic_handler` dict carried through to
record that the body never touches them. -/
structure ConnectOutcome where
  status : Int
  message : String
  transportConnectCalled : Bool
  loopStarted : Bool
  subs : PendingTable
  handlers : Registry
deriving DecidableEq

/-- Happy-path body of `connect_host(conn_req)` (the `except` clauses are
modelled separately by `pyConnectExcHandler`).  `getUser` abstracts
`__get_user_name` (JWT payload decoding, total: it returns "tester" on any
failure); `valTok` abstracts the `__validate_Token` HTTP round trip,
returning the `(status, message)` tuple; `isConnected` is the transport
connectivity query; `connectResult` is `res.value` of `mqttClient.connect`
and `errStr` is `mqtt.error_string`.  The five transport callback bindings
installed before the connectivity check do not touch either dict. -/
def pyConnectHost (subs0 : PendingTable) (reg0 : Registry) (req : ConnRequest)
    (getUser : String → String) (valTok : String → String → String × String)
    (isConnected : Bool) (connectResult : Int) (errStr : Int → String) : ConnectOutcome :=
  match req with
  | .emptyReq => ⟨101, "Request cannot be null", false, false, subs0, reg0⟩
  | .badJson m => ⟨-1, "Invalid JSON: " ++ m, false, false, subs0, reg0⟩
  | .missingToken => ⟨-1, keyErrorMsg "token", false, false, subs0, reg0⟩
  | .ok _ _ token =>
    let v := valTok (getUser token) token
    if v.1 ≠ "Success" then
      ⟨1, v.2, false, false, subs0, reg0⟩
    else if isConnected then
      ⟨105, "Client is already connected", false, false, subs0, reg0⟩
    else
      ⟨connectResult, errStr connectResult, true, connectResult = 0, subs0, reg0⟩

/-- A Python exception as seen by the `except Exception` clause of
`connect_host`: whether it has an `errno` attribute at all, the attribute
value when present (`none` models `errno = None`), and its `str(ex)`. -/
structure PyExc where
  hasErrno : Bool
  errnoVal : Option Int
  msg : String
deriving DecidableEq

/-- What the `except Exception` clause of `connect_host` does. -/
inductive ExcHandled where
  /-- The clause returned a `ConnectionResponse(status, message)` after
  optionally invoking `on_error` with the given argument. -/
  | returns (status : Int) (message : String) (errCb : Option (Int × String))
  /-- The clause itself raised this new exception, which escapes
  `connect_host` to the caller. -/
  | escapes (excName : String)
deriving DecidableEq

/-- The `except Exception as ex` clause of `connect_host`, line by line:
`if ex.errno is not None and ex.errno==11001:` reads `ex.errno`, raising
AttributeError when the exception has no such attribute; on the 11001
branch `self.__on_error(ex.errno, "Invalid host name")` is invoked without
the `if self.__on_error:` guard used everywhere else, raising TypeError
when no error callback is registered; otherwise the clause returns
`ConnectionResponse(-1, str(ex))` after the guarded `on_error` call. -/
def pyConnectExcHandler (ex : PyExc) (errCbRegistered : Bool) : ExcHandled :=
  if !ex.hasErrno then
    .escapes "AttributeError"
  else
    match ex.errnoVal with
    | some v =>
      if v = 11001 then
        if errCbRegistered then
          .returns 11001 "Invalid host name" (some (11001, "Invalid host name"))
        else
          .escapes "TypeError"
      else if errCbRegistered then
        .returns (-1) ex.msg (some (-1, ex.msg))
      else
        .returns (-1) ex.msg none
    | none =>
      if errCbRegistered then
        .returns (-1) ex.msg (some (-1, ex.msg))
      else
        .returns (-1) ex.msg none

/-! Helper lemmas about the marker-splitting function. -/

/-- Re-split of a string never yields an empty list of parts. -/
theorem splitOnMarker_ne_nil (l : List Char) : splitOnMarker l ≠ [] := by
  match l with
  | [] => simp [splitOnMarker]
  | [c] => simp [splitOnMarker]
  | [c, d] => simp [splitOnMarker]
  | c :: d :: e :: rest =>
    simp only [splitOnMarker]
    split <;> simp

/-- A marker-free string is left in one piece by the split. -/
theorem splitOnMarker_of_noMarker (l : List Char) (h : noMarkerB l = true) :
    splitOnMarker l = [l] := by
  induction l with
  | nil => simp [splitOnMarker]
  | cons c t ih =>
    match t with
    | [] => simp [splitOnMarker]
    | [d] => simp [splitOnMarker]
    | d :: e :: rest =>
      simp only [noMarkerB, Bool.and_eq_true, Bool.not_eq_true'] at h
      have h2 := ih h.2
      simp [splitOnMarker, h.1, h2]

/-- Splitting a string of the form `q ++ "v1/" ++ r`, with `q` marker-free,
peels off `q` and continues in `r`.  Because the marker starts with the
character v and `q` is marker-free, no occurrence can straddle the
boundary. -/
theorem splitOnMarker_append (q r : List Char) (h : noMarkerB q = true) :
    splitOnMarker (q ++ 'v' :: '1' :: '/' :: r) = q :: splitOnMarker r := by
  induction q with
  | nil => simp [splitOnMarker]
  | cons c t ih =>
    match t with
    | [] =>
      show splitOnMarker (c :: 'v' :: '1' :: '/' :: r) = [c] :: splitOnMarker r
      simp [splitOnMarker]
    | [d] =>
      show splitOnMarker (c :: d :: 'v' :: '1' :: '/' :: r) = [c, d] :: splitOnMarker r
      simp [splitOnMarker]
    | d :: e :: rest =>
      simp only [noMarkerB, Bool.and_eq_true, Bool.not_eq_true'] at h
      have hd : splitOnMarker ((d :: e :: rest) ++ 'v' :: '1' :: '/' :: r)
          = (d :: e :: rest) :: splitOnMarker r := ih h.2
      show splitOnMarker (c :: ((d :: e :: rest) ++ 'v' :: '1' :: '/' :: r))
          = (c :: d :: e :: rest) :: splitOnMarker r
      have hstep :
          splitOnMarker (c :: ((d :: e :: rest) ++ 'v' :: '1' :: '/' :: r))
            = (c :: (splitOnMarker ((d :: e :: rest) ++ 'v' :: '1' :: '/' :: r)).headD [])
              :: (splitOnMarker ((d :: e :: rest) ++ 'v' :: '1' :: '/' :: r)).tail := by
        show splitOnMarker (c :: d :: e :: (rest ++ 'v' :: '1' :: '/' :: r)) = _
        simp [splitOnMarker, h.1]
      rw [hstep, hd]
      simp

/-- A string holding an occurrence of the marker splits into at least two
parts, so index 1 of the Python split result is in range. -/
theorem two_le_splitOnMarker_length (l : List Char) (h : noMarkerB l = false) :
    2 ≤ (splitOnMarker l).length := by
  induction l with
  | nil => simp [noMarkerB] at h
  | cons c t ih =>
    match t with
    | [] => simp [noMarkerB] at h
    | [d] => simp [noMarkerB] at h
    | d :: e :: rest =>
      by_cases hm : (c = 'v' && d = '1' && e = '/') = true
      · have h1 : 1 ≤ (splitOnMarker rest).length := by
          cases hr : splitOnMarker rest with
          | nil => exact absurd hr (splitOnMarker_ne_nil rest)
          | cons a b => simp
        simp only [splitOnMarker, hm, if_true, List.length_cons]
        omega
      · have hm' : (c = 'v' && d = '1' && e = '/') = false :=
          Bool.not_eq_true _ ▸ Bool.of_not_eq_true hm
        have ht : noMarkerB (d :: e :: rest) = false := by
          have := h
          simp only [noMarkerB, hm', Bool.not_false, Bool.true_and] at this
          exact this
        have h2 := ih ht
        cases hr : splitOnMarker (d :: e :: rest) with
        | nil => exact absurd hr (splitOnMarker_ne_nil _)
        | cons a b =>
          rw [hr] at h2
          simp only [List.length_cons] at h2
          simp [splitOnMarker, hm', hr]
          omega

/-! Helper lemmas about the request builders and the pending table. -/

/-- The `valid_topics` list built by `_build_subscription_topics` is exactly
the valid suffixes, in submission order, each prefixed and paired with
qos 0. -/
theorem build_sub_valid (pre : List Char) (lst : List (List Char)) :
    (build_subscription_topics pre lst).validTopics
      = (lst.filter (fun t => fullmatchTopic t)).map (fun t => (pre ++ t, 0)) := by
  induction lst with
  | nil => simp [build_subscription_topics]
  | cons t rest ih =>
    by_cases hm : fullmatchTopic t = true
    · simp [build_subscription_topics, hm, List.filter_cons, ih]
    · simp only [Bool.not_eq_true] at hm
      simp [build_subscription_topics, hm, List.filter_cons, ih]

/-- The `failedTopics` list built by `_build_subscription_topics` is exactly
the invalid suffixes, in submission order, unchanged and unprefixed, each
wrapped as `SubscribeResult(104, "Invalid topic", topic)`. -/
theorem build_sub_failed (pre : List Char) (lst : List (List Char)) :
    (build_subscription_topics pre lst).failedTopics
      = (lst.filter (fun t => !fullmatchTopic t)).map
          (fun t => (⟨104, "Invalid topic", t⟩ : SubscribeResult)) := by
  induction lst with
  | nil => simp [build_subscription_topics]
  | cons t rest ih =>
    by_cases hm : fullmatchTopic t = true
    · simp [build_subscription_topics, hm, List.filter_cons, ih]
    · simp only [Bool.not_eq_true] at hm
      simp [build_subscription_topics, hm, List.filter_cons, ih]

/-- The `valid_topics` list built by `_build_unsubscribe_options` is exactly
the valid suffixes, in submission order, each prefixed (no qos pairing in
the unsubscribe path). -/
theorem build_unsub_valid (pre : List Char) (lst : List (List Char)) :
    (build_unsubscribe_options pre lst).validTopics
      = (lst.filter (fun t => fullmatchTopic t)).map (fun t => pre ++ t) := by
  induction lst with
  | nil => simp [build_unsubscribe_options]
  | cons t rest ih =>
    by_cases hm : fullmatchTopic t = true
    · simp [build_unsubscribe_options, hm, List.filter_cons, ih]
    · simp only [Bool.not_eq_true] at hm
      simp [build_unsubscribe_options, hm, List.filter_cons, ih]

/-- The `failedTopics` list built by `_build_unsubscribe_options`. -/
theorem build_unsub_failed (pre : List Char) (lst : List (List Char)) :
    (build_unsubscribe_options pre lst).failedTopics
      = (lst.filter (fun t => !fullmatchTopic t)).map
          (fun t => (⟨104, "Invalid topic", t⟩ : SubscribeResult)) := by
  induction lst with
  | nil => simp [build_unsubscribe_options]
  | cons t rest ih =>
    by_cases hm : fullmatchTopic t = true
    · simp [build_unsubscribe_options, hm, List.filter_cons, ih]
    · simp only [Bool.not_eq_true] at hm
      simp [build_unsubscribe_options, hm, List.filter_cons, ih]

/-- After `del self.__subscriptions[mid]` the id resolves to nothing. -/
theorem subsGet_subsDel (t : PendingTable) (mid : Nat) :
    subsGet (subsDel t mid) mid = none := by
  have hnone : (subsDel t mid).find? (fun e => decide (e.1 = mid)) = none := by
    rw [List.find?_eq_none]
    intro x hx
    have hmem := List.of_mem_filter hx
    simp only [decide_eq_true_eq] at hmem ⊢
    simp [hmem]
  simp [subsGet, hnone]

/-- An ack for an id absent from the pending table is absorbed by the
`except` clause with the table unchanged. -/
theorem pyOnSubscribe_absent (subs0 : PendingTable) (mid : Nat) (rcs : List Int)
    (h : subsGet subs0 mid = none) :
    pyOnSubscribe subs0 mid rcs = .errorCaught subs0 := by
  simp [pyOnSubscribe, h]

/-- The loop of `__on_subscribe` completes without raising whenever every
stored topic string holds the namespace marker. -/
theorem collectResults_isSome (ps : List (Int × (List Char × Nat)))
    (h : ∀ p ∈ ps, noMarkerB p.2.1 = false) :
    ∃ ls, collectResults ps = some ls := by
  induction ps with
  | nil => exact ⟨[], rfl⟩
  | cons p rest ih =>
    obtain ⟨ls, hls⟩ := ih (fun q hq => h q (List.mem_cons_of_mem _ hq))
    have hlen := two_le_splitOnMarker_length p.2.1 (h p (List.mem_cons_self _ _))
    obtain ⟨rc, tq⟩ := p
    match hsp : splitOnMarker tq.1 with
    | [] => simp [hsp] at hlen
    | [a] => simp [hsp] at hlen
    | a :: b :: c =>
      refine ⟨⟨rc, if rc = 0 then "Granted" else "Not Granted", b⟩ :: ls, ?_⟩
      simp [collectResults, mkSubResult, hsp, hls]

/-- Evaluation of the loop when every stored topic has the shape
`base ++ "v1/" ++ suffix` with marker-free base and suffix: each reason
code is paired positionally with a topic, clamped to the shorter list, and
the produced result carries the suffix and is granted exactly on reason
code 0. -/
theorem collectResults_zip (rcs : List Int) (items : List (List Char × List Char × Nat))
    (hb : ∀ it ∈ items, noMarkerB it.1 = true)
    (hs : ∀ it ∈ items, noMarkerB it.2.1 = true) :
    collectResults (rcs.zip (items.map (fun it => (it.1 ++ 'v' :: '1' :: '/' :: it.2.1, it.2.2))))
      = some ((rcs.zip items).map (fun p =>
          (⟨p.1, if p.1 = 0 then "Granted" else "Not Granted", p.2.2.1⟩ : SubscribeResult))) := by
  induction rcs generalizing items with
  | nil => simp [collectResults]
  | cons rc rcrest ih =>
    match items with
    | [] => simp [collectResults]
    | it :: irest =>
      have hb1 := hb it (List.mem_cons_self _ _)
      have hs1 := hs it (List.mem_cons_self _ _)
      have hsp : splitOnMarker (it.1 ++ 'v' :: '1' :: '/' :: it.2.1) = [it.1, it.2.1] := by
        rw [splitOnMarker_append _ _ hb1, splitOnMarker_of_noMarker _ hs1]
      have ihr := ih irest (fun q hq => hb q (List.mem_cons_of_mem _ hq))
        (fun q hq => hs q (List.mem_cons_of_mem _ hq))
      simp only [List.zip] at ihr
      simp [collectResults, mkSubResult, hsp, List.zip, ihr]

/-- Evaluation of `__subscribe` on a parsed request failing the bound
guard. -/
theorem pySubscribe_guard102 (subs0 : PendingTable) (lst : List (List Char)) (pre : List Char)
    (tr : List (List Char × Nat) → Int × Nat) (errStr : Int → String)
    (h : (lst.isEmpty || decide (1024 < lst.length)) = true) :
    pySubscribe subs0 (.ok lst) pre tr errStr
      = ⟨⟨102, some "TopicList cannot be null and no. of topics should be less than 1024", []⟩,
          none, subs0, none⟩ := by
  simp only [pySubscribe, h]
  rfl

/-- Evaluation of `__unsubscribe` on a parsed request failing the bound
guard. -/
theorem pyUnsubscribe_guard102 (subs0 : PendingTable) (lst : List (List Char)) (pre : List Char)
    (tru : List (List Char) → Int × Nat) (errStr : Int → String)
    (h : (lst.isEmpty || decide (1024 < lst.length)) = true) :
    pyUnsubscribe subs0 (.ok lst) pre tru errStr
      = ⟨⟨102, some "TopicList cannot be null and no. of topics should be less than 1024", []⟩,
          none, subs0, none⟩ := by
  simp only [pyUnsubscribe, h]
  rfl

/-- Full evaluation of `__subscribe` on a parsed in-bounds request, with the
two guards resolved and the lets expanded. -/
theorem pySubscribe_ok_eval (subs0 : PendingTable) (lst : List (List Char)) (pre : List Char)
    (tr : List (List Char × Nat) → Int × Nat) (errStr : Int → String)
    (h1 : lst.isEmpty = false) (h2 : decide (1024 < lst.length) = false) :
    pySubscribe subs0 (.ok lst) pre tr errStr
      = (if (build_subscription_topics pre lst).validTopics.isEmpty then
           ⟨⟨103, some "Subscripton failed", (build_subscription_topics pre lst).failedTopics⟩,
             none, subs0, none⟩
         else if (tr (build_subscription_topics pre lst).validTopics).1 = 0 then
           ⟨⟨(tr (build_subscription_topics pre lst).validTopics).1,
              some (if 0 < (build_subscription_topics pre lst).failedTopics.length
                    then "Subscription partially sent"
                    else errStr (tr (build_subscription_topics pre lst).validTopics).1),
              (build_subscription_topics pre lst).failedTopics⟩,
             some (build_subscription_topics pre lst).validTopics,
             subsSet subs0 (tr (build_subscription_topics pre lst).validTopics).2
               (build_subscription_topics pre lst).validTopics, none⟩
         else
           ⟨⟨(tr (build_subscription_topics pre lst).validTopics).1,
              some (errStr (tr (build_subscription_topics pre lst).validTopics).1),
              (build_subscription_topics pre lst).failedTopics⟩,
             some (build_subscription_topics pre lst).validTopics, subs0, none⟩) := by
  simp only [pySubscribe, h1, h2]
  rfl

/-- Full evaluation of `__unsubscribe` on a parsed in-bounds request. -/
theorem pyUnsubscribe_ok_eval (subs0 : PendingTable) (lst : List (List Char)) (pre : List Char)
    (tru : List (List Char) → Int × Nat) (errStr : Int → String)
    (h1 : lst.isEmpty = false) (h2 : decide (1024 < lst.length) = false) :
    pyUnsubscribe subs0 (.ok lst) pre tru errStr
      = (if (build_unsubscribe_options pre lst).validTopics.isEmpty then
           ⟨⟨103, some "Unsubscription failed", (build_unsubscribe_options pre lst).failedTopics⟩,
             none, subs0, none⟩
         else if (tru (build_unsubscribe_options pre lst).validTopics).1 = 0 then
           ⟨⟨(tru (build_unsubscribe_options pre lst).validTopics).1,
              some (if 0 < (build_unsubscribe_options pre lst).failedTopics.length
                    then "Unsubscripton partially sent"
                    else errStr (tru (build_unsubscribe_options pre lst).validTopics).1),
              (build_unsubscribe_options pre lst).failedTopics⟩,
             some (build_unsubscribe_options pre lst).validTopics, subs0, none⟩
         else
           ⟨⟨(tru (build_unsubscribe_options pre lst).validTopics).1,
              some (errStr (tru (build_unsubscribe_options pre lst).validTopics).1),
              (build_unsubscribe_options pre lst).failedTopics⟩,
             some (build_unsubscribe_options pre lst).validTopics, subs0, none⟩) := by
  simp only [pyUnsubscribe, h1, h2]
  rfl

/-! Claim theorems. -/

/-- Claim C1: the spec states that for every data category, a message on
that category's namespace followed by a suffix reaches exactly the handler
most recently registered for that category, and never a handler registered
via a different category's registration call.  The code violates this for
the 52-week-low category: its setter passes `self.high_52_week` to
`__set_callback` (connector.py line 284), contradicting its own docstring,
so a 52-week-low message is dropped even though a handler was just
registered for that category, while a 52-week-high message invokes the
handler registered via the 52-week-low registration call. -/
theorem low52_registration_misrouted :
    onMessage (registerDataCallback [] Category.low52week (some 7))
      (topicOf Category.low52week ++ "123".toList) 0 = DispatchResult.drop ∧
    onMessage (registerDataCallback [] Category.low52week (some 7))
      (topicOf Category.high52week ++ "123".toList) 0
      = DispatchResult.invoke 7 0 "123".toList := ⟨rfl, rfl⟩

/-- Claim C2: once a subscribe submission has recorded a correlation id in
the pending request table (resolving to marker-bearing prefixed topics, as
the subscribe path always stores), the first subscribe-ack for that id
removes the entry exactly once and forwards one SUBACK event; afterwards
the id resolves to nothing, and any further ack for it — like any ack for
an unknown id — is absorbed by the `except` clause with the table
unchanged: reported via the error callback at most, never thrown. -/
theorem subscribe_ack_exactly_once (subs0 : PendingTable) (mid : Nat)
    (topics : List (List Char × Nat)) (rcs : List Int)
    (hget : subsGet subs0 mid = some topics)
    (hmk : ∀ tq ∈ topics, noMarkerB tq.1 = false)
    (hrcs : rcs ≠ []) :
    (∃ ls, pyOnSubscribe subs0 mid rcs
        = SubAckOutcome.forwarded "SUBACK" ls (subsDel subs0 mid)) ∧
    subsGet (subsDel subs0 mid) mid = none ∧
    (∀ rcs2 : List Int, pyOnSubscribe (subsDel subs0 mid) mid rcs2
        = SubAckOutcome.errorCaught (subsDel subs0 mid)) := by
  refine ⟨?_, subsGet_subsDel subs0 mid, ?_⟩
  · obtain ⟨ls, hls⟩ := collectResults_isSome (rcs.zip topics)
      (fun p hp => hmk p.2 (List.of_mem_zip hp).2)
    refine ⟨ls, ?_⟩
    match rcs, hrcs with
    | rc :: rest, _ => simp [pyOnSubscribe, hget, hls]
  · intro rcs2
    exact pyOnSubscribe_absent _ _ _ (subsGet_subsDel subs0 mid)

/-- Witness for C2 at a concrete one-entry table and a single reason code. -/
theorem subscribe_ack_exactly_once_witness :
    (∃ ls, pyOnSubscribe [(5, [(mw_topic ++ "abc".toList, 0)])] 5 [0]
        = SubAckOutcome.forwarded "SUBACK" ls
            (subsDel [(5, [(mw_topic ++ "abc".toList, 0)])] 5)) ∧
    subsGet (subsDel [(5, [(mw_topic ++ "abc".toList, 0)])] 5) 5 = none ∧
    pyOnSubscribe (subsDel [(5, [(mw_topic ++ "abc".toList, 0)])] 5) 5 [7]
      = SubAckOutcome.errorCaught (subsDel [(5, [(mw_topic ++ "abc".toList, 0)])] 5) := by
  have h := subscribe_ack_exactly_once [(5, [(mw_topic ++ "abc".toList, 0)])] 5
    [(mw_topic ++ "abc".toList, 0)] [0] (by rfl) (by decide) (by decide)
  exact ⟨h.1, h.2.1, h.2.2 [7]⟩

/-- Claim C3: the spec states every public operation converts every raised
exception into a status −1 result carrying the exception text and never
throws across the public boundary.  Evaluating the `except Exception`
clause of `connect_host`: for an exception without an `errno` attribute
the clause itself raises AttributeError, which escapes to the caller; for
errno 11001 with no error callback registered it raises TypeError; and
even the surviving errno-11001 path returns status 11001 with a fixed
message instead of status −1 with the exception text. -/
theorem connect_exception_escapes :
    pyConnectExcHandler ⟨false, none, "boom"⟩ true = ExcHandled.escapes "AttributeError" ∧
    pyConnectExcHandler ⟨true, some 11001, "getaddrinfo failed"⟩ false
      = ExcHandled.escapes "TypeError" ∧
    pyConnectExcHandler ⟨true, some 11001, "getaddrinfo failed"⟩ true
      = ExcHandled.returns 11001 "Invalid host name" (some (11001, "Invalid host name")) :=
  ⟨rfl, rfl, rfl⟩

/-- Claim C4: for an in-bounds subscribe batch, the transport call receives
exactly the prefixed valid suffixes in submission order (and is skipped
when there are none), every other suffix appears unchanged and unprefixed
in `failedTopics` with resultCode 104, and a suffix is valid exactly when
it is non-empty and made only of ASCII digits, ASCII lowercase letters
and slashes — a full match of `[0-9a-z/]+`, failing on the empty string
and any other character, unicode or punctuation included. -/
theorem subscribe_filters_by_grammar (subs0 : PendingTable) (lst : List (List Char))
    (pre : List Char) (tr : List (List Char × Nat) → Int × Nat) (errStr : Int → String)
    (hne : lst ≠ []) (hlen : lst.length ≤ 1024) :
    ((pySubscribe subs0 (.ok lst) pre tr errStr).transportCall
        = if (lst.filter (fun t => fullmatchTopic t)).isEmpty then none
          else some ((lst.filter (fun t => fullmatchTopic t)).map (fun t => (pre ++ t, 0)))) ∧
    (pySubscribe subs0 (.ok lst) pre tr errStr).response.failedTopics
        = (lst.filter (fun t => !fullmatchTopic t)).map
            (fun t => (⟨104, "Invalid topic", t⟩ : SubscribeResult)) ∧
    (∀ s : List Char, fullmatchTopic s = true ↔
        s ≠ [] ∧ ∀ c ∈ s, ('0' ≤ c ∧ c ≤ '9') ∨ ('a' ≤ c ∧ c ≤ 'z') ∨ c = '/') := by
  have h1 : lst.isEmpty = false := by simpa [List.isEmpty_iff] using hne
  have h2 : decide (1024 < lst.length) = false := decide_eq_false (by omega)
  have heval := pySubscribe_ok_eval subs0 lst pre tr errStr h1 h2
  have hiso : (lst.filter (fun t => fullmatchTopic t)).isEmpty
      = (build_subscription_topics pre lst).validTopics.isEmpty := by
    rw [build_sub_valid]
    cases lst.filter (fun t => fullmatchTopic t) <;> rfl
  refine ⟨?_, ?_, ?_⟩
  · rw [heval, hiso, ← build_sub_valid pre lst]
    cases hv : (build_subscription_topics pre lst).validTopics.isEmpty
    · by_cases hz : (tr (build_subscription_topics pre lst).validTopics).1 = 0 <;> simp [hz]
    · simp
  · rw [heval, ← build_sub_failed pre lst]
    cases hv : (build_subscription_topics pre lst).validTopics.isEmpty
    · by_cases hz : (tr (build_subscription_topics pre lst).validTopics).1 = 0 <;> simp [hz]
    · simp
  · intro s
    simp [fullmatchTopic, isTopicChar, List.isEmpty_iff, List.all_eq_true,
      Bool.or_eq_true, Bool.and_eq_true, decide_eq_true_eq, or_assoc]

/-- Witness for C4 on a mixed batch with one valid and one invalid suffix. -/
theorem subscribe_filters_by_grammar_witness :
    ((pySubscribe [] (.ok ["abc".toList, "zB!".toList]) mw_topic
        (fun _ => (0, 1)) (fun _ => "No error.")).transportCall
        = if ((["abc".toList, "zB!".toList]).filter (fun t => fullmatchTopic t)).isEmpty then none
          else some (((["abc".toList, "zB!".toList]).filter (fun t => fullmatchTopic t)).map
            (fun t => (mw_topic ++ t, 0)))) ∧
    (pySubscribe [] (.ok ["abc".toList, "zB!".toList]) mw_topic
        (fun _ => (0, 1)) (fun _ => "No error.")).response.failedTopics
        = ((["abc".toList, "zB!".toList]).filter (fun t => !fullmatchTopic t)).map
            (fun t => (⟨104, "Invalid topic", t⟩ : SubscribeResult)) ∧
    (∀ s : List Char, fullmatchTopic s = true ↔
        s ≠ [] ∧ ∀ c ∈ s, ('0' ≤ c ∧ c ≤ '9') ∨ ('a' ≤ c ∧ c ≤ 'z') ∨ c = '/') :=
  subscribe_filters_by_grammar [] ["abc".toList, "zB!".toList] mw_topic
    (fun _ => (0, 1)) (fun _ => "No error.") (by decide) (by decide)

/-- Claim C5 counterexample: the claim states the handler receives the
entire remainder of the topic after the first occurrence of "v1/", even
when the suffix itself holds the marker.  With a feed handler registered
and topic `prod/marketfeed/mw/v1/abcv1/def`, the remainder after the
first marker is `abcv1/def`, but the dispatcher invokes the handler with
only `abc`: `re.split` cuts at every occurrence and index 1 is the
segment before the second one. -/
theorem dispatch_suffix_truncated :
    onMessage (registerDataCallback [] Category.feed (some 3))
      (mw_topic ++ "abcv1/def".toList) 0 = DispatchResult.invoke 3 0 "abc".toList ∧
    "abc".toList ≠ "abcv1/def".toList := ⟨rfl, by decide⟩

/-- Claim C5 amended: the dispatcher recovers the namespace as everything
before the first occurrence of "v1/" plus the marker itself, and invokes
the handler registered for that namespace with the segment of the topic
between the first and the second occurrence of the marker — which is the
entire remainder exactly when the remainder holds no further
occurrence. -/
theorem dispatch_first_marker_split (reg : Registry) (p s s2 : List Char) (h payload : Nat)
    (hp : noMarkerB p = true) (hs : noMarkerB s = true)
    (hreg : getHandler reg (p ++ marker) = some h) :
    onMessage reg (p ++ marker ++ s) payload = DispatchResult.invoke h payload s ∧
    onMessage reg (p ++ marker ++ s ++ marker ++ s2) payload
      = DispatchResult.invoke h payload s := by
  constructor
  · have hsp : splitOnMarker (p ++ (marker ++ s)) = [p, s] := by
      show splitOnMarker (p ++ 'v' :: '1' :: '/' :: s) = [p, s]
      rw [splitOnMarker_append _ _ hp, splitOnMarker_of_noMarker _ hs]
    simp [onMessage, List.append_assoc, hsp, hreg]
  · have hsp : splitOnMarker (p ++ (marker ++ (s ++ (marker ++ s2))))
        = p :: s :: splitOnMarker s2 := by
      show splitOnMarker (p ++ 'v' :: '1' :: '/' :: (s ++ 'v' :: '1' :: '/' :: s2))
          = p :: s :: splitOnMarker s2
      rw [splitOnMarker_append _ _ hp, splitOnMarker_append _ _ hs]
    simp [onMessage, List.append_assoc, hsp, hreg]

/-- Witness for the amended C5 with a feed handler, suffix abc and tail
def. -/
theorem dispatch_first_marker_split_witness :
    onMessage (registerDataCallback [] Category.feed (some 3))
      ("prod/marketfeed/mw/".toList ++ marker ++ "abc".toList) 0
      = DispatchResult.invoke 3 0 "abc".toList ∧
    onMessage (registerDataCallback [] Category.feed (some 3))
      ("prod/marketfeed/mw/".toList ++ marker ++ "abc".toList ++ marker ++ "def".toList) 0
      = DispatchResult.invoke 3 0 "abc".toList :=
  dispatch_first_marker_split (registerDataCallback [] Category.feed (some 3))
    "prod/marketfeed/mw/".toList "abc".toList "def".toList 3 0
    (by decide) (by decide) (by rfl)

/-- Claim C6: a parsed connect request whose token passes identity
validation, issued while the transport is already connected, returns
status 105 with the fixed message, does not issue the transport connect
call or start the delivery loop, and leaves the pending table and the
handler registry unchanged. -/
theorem connect_when_already_connected (subs0 : PendingTable) (reg0 : Registry)
    (host : String) (port : Nat) (token : String) (getUser : String → String)
    (valTok : String → String → String × String) (connectResult : Int)
    (errStr : Int → String)
    (hval : (valTok (getUser token) token).1 = "Success") :
    pyConnectHost subs0 reg0 (.ok host port token) getUser valTok true connectResult errStr
      = ⟨105, "Client is already connected", false, false, subs0, reg0⟩ := by
  simp [pyConnectHost, hval]

/-- Witness for C6 with a concrete accepted token and non-empty state. -/
theorem connect_when_already_connected_witness :
    pyConnectHost [(5, [(mw_topic ++ "abc".toList, 0)])] [(mw_topic, some 3)]
      (.ok "bridge.iiflcapital.com" 9906 "tok") (fun _ => "tester")
      (fun _ _ => ("Success", "Token is valid")) true 0 (fun _ => "No error.")
      = ⟨105, "Client is already connected", false, false,
          [(5, [(mw_topic ++ "abc".toList, 0)])], [(mw_topic, some 3)]⟩ :=
  connect_when_already_connected [(5, [(mw_topic ++ "abc".toList, 0)])] [(mw_topic, some 3)]
    "bridge.iiflcapital.com" 9906 "tok" (fun _ => "tester")
    (fun _ _ => ("Success", "Token is valid")) 0 (fun _ => "No error.") (by rfl)

/-- Claim C7: a null/empty request string yields status 101 for both
subscribe and unsubscribe, a parsed request whose topic list has more
than 1024 entries yields status 102, and in all four cases no transport
call is issued. -/
theorem request_bounds_checks (subs0 : PendingTable) (pre : List Char)
    (tr : List (List Char × Nat) → Int × Nat) (tru : List (List Char) → Int × Nat)
    (errStr : Int → String) (lst : List (List Char)) (hlen : 1024 < lst.length) :
    ((pySubscribe subs0 .emptyReq pre tr errStr).response.status = 101 ∧
      (pySubscribe subs0 .emptyReq pre tr errStr).transportCall = none) ∧
    ((pySubscribe subs0 (.ok lst) pre tr errStr).response.status = 102 ∧
      (pySubscribe subs0 (.ok lst) pre tr errStr).transportCall = none) ∧
    ((pyUnsubscribe subs0 .emptyReq pre tru errStr).response.status = 101 ∧
      (pyUnsubscribe subs0 .emptyReq pre tru errStr).transportCall = none) ∧
    ((pyUnsubscribe subs0 (.ok lst) pre tru errStr).response.status = 102 ∧
      (pyUnsubscribe subs0 (.ok lst) pre tru errStr).transportCall = none) := by
  have hg : (lst.isEmpty || decide (1024 < lst.length)) = true := by
    rw [decide_eq_true hlen]
    simp
  refine ⟨⟨rfl, rfl⟩, ?_, ⟨rfl, rfl⟩, ?_⟩
  · rw [pySubscribe_guard102 subs0 lst pre tr errStr hg]
    exact ⟨rfl, rfl⟩
  · rw [pyUnsubscribe_guard102 subs0 lst pre tru errStr hg]
    exact ⟨rfl, rfl⟩

/-- Witness for C7 with a 1025-entry list. -/
theorem request_bounds_checks_witness :
    ((pySubscribe [] .emptyReq [] (fun _ => (0, 1)) (fun _ => "")).response.status = 101 ∧
      (pySubscribe [] .emptyReq [] (fun _ => (0, 1)) (fun _ => "")).transportCall = none) ∧
    ((pySubscribe [] (.ok (List.replicate 1025 "a".toList)) [] (fun _ => (0, 1))
        (fun _ => "")).response.status = 102 ∧
      (pySubscribe [] (.ok (List.replicate 1025 "a".toList)) [] (fun _ => (0, 1))
        (fun _ => "")).transportCall = none) ∧
    ((pyUnsubscribe [] .emptyReq [] (fun _ => (0, 1)) (fun _ => "")).response.status = 101 ∧
      (pyUnsubscribe [] .emptyReq [] (fun _ => (0, 1)) (fun _ => "")).transportCall = none) ∧
    ((pyUnsubscribe [] (.ok (List.replicate 1025 "a".toList)) [] (fun _ => (0, 1))
        (fun _ => "")).response.status = 102 ∧
      (pyUnsubscribe [] (.ok (List.replicate 1025 "a".toList)) [] (fun _ => (0, 1))
        (fun _ => "")).transportCall = none) :=
  request_bounds_checks [] [] (fun _ => (0, 1)) (fun _ => (0, 1)) (fun _ => "")
    (List.replicate 1025 "a".toList) (by rw [List.length_replicate]; omega)

/-- Claim C8 counterexample: the claim states each per-topic ack result
carries the topic's suffix with the namespace prefix stripped.  For the
stored topic `prod/marketfeed/mw/v1/av1/b` — a validly subscribable
suffix `av1/b`, since v, 1 and / are all in the grammar — the forwarded
result carries only `a`, the segment before the second occurrence of the
marker, not the prefix-stripped suffix. -/
theorem suback_suffix_truncated :
    pyOnSubscribe [(5, [(mw_topic ++ "av1/b".toList, 0)])] 5 [0]
      = SubAckOutcome.forwarded "SUBACK" [⟨0, "Granted", "a".toList⟩] [] ∧
    "a".toList ≠ "av1/b".toList := ⟨rfl, by decide⟩

/-- Claim C8 amended: for a known correlation id whose stored topics have
the shape `base ++ "v1/" ++ suffix` with marker-free base and suffix,
the ack handler pairs reason codes with topics positionally in submission
order, clamps the pairing to the shorter of the two sequences, marks a
pair granted exactly when its reason code is 0, carries the segment of
the stored topic between the first and second occurrence of the marker —
the full prefix-stripped suffix whenever the suffix holds no further
occurrence — and forwards the aggregate as one SUBACK event while
deleting the table entry. -/
theorem suback_pairing_clamped (subs0 : PendingTable) (mid : Nat)
    (items : List (List Char × List Char × Nat)) (rcs : List Int)
    (hget : subsGet subs0 mid
        = some (items.map (fun it => (it.1 ++ 'v' :: '1' :: '/' :: it.2.1, it.2.2))))
    (hb : ∀ it ∈ items, noMarkerB it.1 = true)
    (hs : ∀ it ∈ items, noMarkerB it.2.1 = true)
    (hrcs : rcs ≠ []) :
    pyOnSubscribe subs0 mid rcs
      = SubAckOutcome.forwarded "SUBACK"
          ((rcs.zip items).map (fun p =>
            (⟨p.1, if p.1 = 0 then "Granted" else "Not Granted", p.2.2.1⟩ : SubscribeResult)))
          (subsDel subs0 mid) := by
  have hcol := collectResults_zip rcs items hb hs
  match rcs, hrcs with
  | rc :: rest, _ => simp [pyOnSubscribe, hget, hcol]

/-- Witness for the amended C8: one stored topic, two reason codes; the
pairing clamps to the single topic and the result carries the stored
suffix. -/
theorem suback_pairing_clamped_witness :
    pyOnSubscribe
      [(5, [("prod/marketfeed/mw/".toList ++ 'v' :: '1' :: '/' :: "abc".toList, 0)])] 5 [0, 135]
      = SubAckOutcome.forwarded "SUBACK"
          (([0, 135].zip [("prod/marketfeed/mw/".toList, "abc".toList, 0)]).map (fun p =>
            (⟨p.1, if p.1 = 0 then "Granted" else "Not Granted", p.2.2.1⟩ : SubscribeResult)))
          (subsDel
            [(5, [("prod/marketfeed/mw/".toList ++ 'v' :: '1' :: '/' :: "abc".toList, 0)])] 5) :=
  suback_pairing_clamped
    [(5, [("prod/marketfeed/mw/".toList ++ 'v' :: '1' :: '/' :: "abc".toList, 0)])] 5
    [("prod/marketfeed/mw/".toList, "abc".toList, 0)] [0, 135]
    (by rfl) (by decide) (by decide) (by decide)

/-- Claim C9: when every suffix of an in-bounds subscribe batch fails
validation, the whole request fails with status 103 and the message of
the source, the transport subscribe call is never attempted, the pending
table and error callback are untouched, and `failedTopics` still lists
every rejected suffix, in order, with resultCode 104. -/
theorem subscribe_all_invalid_fails (subs0 : PendingTable) (lst : List (List Char))
    (pre : List Char) (tr : List (List Char × Nat) → Int × Nat) (errStr : Int → String)
    (hne : lst ≠ []) (hlen : lst.length ≤ 1024)
    (hall : ∀ t ∈ lst, fullmatchTopic t = false) :
    pySubscribe subs0 (.ok lst) pre tr errStr
      = ⟨⟨103, some "Subscripton failed",
          lst.map (fun t => (⟨104, "Invalid topic", t⟩ : SubscribeResult))⟩,
        none, subs0, none⟩ := by
  have h1 : lst.isEmpty = false := by simpa [List.isEmpty_iff] using hne
  have h2 : decide (1024 < lst.length) = false := decide_eq_false (by omega)
  have hfv : lst.filter (fun t => fullmatchTopic t) = [] := by
    rw [List.filter_eq_nil_iff]
    intro a ha
    simp [hall a ha]
  have hff : lst.filter (fun t => !fullmatchTopic t) = lst := by
    rw [List.filter_eq_self]
    intro a ha
    simp [hall a ha]
  have hv : (build_subscription_topics pre lst).validTopics = [] := by
    rw [build_sub_valid, hfv]
    rfl
  have hf : (build_subscription_topics pre lst).failedTopics
      = lst.map (fun t => (⟨104, "Invalid topic", t⟩ : SubscribeResult)) := by
    rw [build_sub_failed, hff]
  simp [pySubscribe, h1, h2, hv, hf]

/-- Witness for C9 with two invalid suffixes. -/
theorem subscribe_all_invalid_fails_witness :
    pySubscribe [] (.ok ["A".toList, "".toList]) mw_topic (fun _ => (0, 1)) (fun _ => "")
      = ⟨⟨103, some "Subscripton failed",
          (["A".toList, "".toList]).map (fun t => (⟨104, "Invalid topic", t⟩ : SubscribeResult))⟩,
        none, [], none⟩ :=
  subscribe_all_invalid_fails [] ["A".toList, "".toList] mw_topic (fun _ => (0, 1))
    (fun _ => "") (by decide) (by decide) (by decide)

/-- Claim C10: the unsubscribe path records nothing keyed by a
transport-assigned id — the pending table is untouched on every control
path, and the transport unsubscribe call is issued with the submitted
topic strings themselves while its returned message id is discarded —
and every unsubscribe-ack forwarded to the acknowledgment callback is the
fixed `{packetType, UNSUBACK, 0, Unsubscribed Successfully}` payload,
independent of the ack's message id and per-topic reason codes. -/
theorem unsubscribe_no_correlation_id :
    (∀ (subs0 : PendingTable) (req : SubRequest) (pre : List Char)
        (tru : List (List Char) → Int × Nat) (errStr : Int → String),
      (pyUnsubscribe subs0 req pre tru errStr).subs = subs0) ∧
    (∀ (subs0 : PendingTable) (lst : List (List Char)) (pre : List Char)
        (tru : List (List Char) → Int × Nat) (errStr : Int → String),
      lst ≠ [] → lst.length ≤ 1024 →
      (lst.filter (fun t => fullmatchTopic t)) ≠ [] →
      (pyUnsubscribe subs0 (.ok lst) pre tru errStr).transportCall
        = some ((lst.filter (fun t => fullmatchTopic t)).map (fun t => pre ++ t))) ∧
    (∀ (mid mid2 : Nat) (rcs rcs2 : List Int) (pt : Int),
      pyOnUnsubscribe mid rcs pt
          = ⟨pt, "UNSUBACK", 0, "Unsubscribed Successfully"⟩ ∧
      pyOnUnsubscribe mid rcs pt = pyOnUnsubscribe mid2 rcs2 pt) := by
  refine ⟨?_, ?_, ?_⟩
  · intro subs0 req pre tru errStr
    cases req with
    | emptyReq => rfl
    | badJson m => rfl
    | missingKey k => rfl
    | ok lst =>
      simp only [pyUnsubscribe]
      split
      · rfl
      · split
        · rfl
        · split <;> rfl
  · intro subs0 lst pre tru errStr hne hlen hval
    have h1 : lst.isEmpty = false := by simpa [List.isEmpty_iff] using hne
    have h2 : decide (1024 < lst.length) = false := decide_eq_false (by omega)
    have hv : (build_unsubscribe_options pre lst).validTopics.isEmpty = false := by
      rw [build_unsub_valid]
      cases hc : lst.filter (fun t => fullmatchTopic t) with
      | nil => exact absurd hc hval
      | cons a b => rfl
    rw [pyUnsubscribe_ok_eval subs0 lst pre tru errStr h1 h2, ← build_unsub_valid pre lst, hv]
    by_cases hz : (tru (build_unsubscribe_options pre lst).validTopics).1 = 0 <;> simp [hz]
  · intro mid mid2 rcs rcs2 pt
    exact ⟨rfl, rfl⟩

/-- Witness for C10: a concrete two-suffix unsubscribe and two concretely
different acks. -/
theorem unsubscribe_no_correlation_id_witness :
    (pyUnsubscribe [(5, [(mw_topic ++ "abc".toList, 0)])] (.ok ["ab".toList, "B".toList])
        mw_topic (fun _ => (0, 9)) (fun _ => "")).subs
      = [(5, [(mw_topic ++ "abc".toList, 0)])] ∧
    (pyUnsubscribe [(5, [(mw_topic ++ "abc".toList, 0)])] (.ok ["ab".toList, "B".toList])
        mw_topic (fun _ => (0, 9)) (fun _ => "")).transportCall
      = some (((["ab".toList, "B".toList]).filter (fun t => fullmatchTopic t)).map
          (fun t => mw_topic ++ t)) ∧
    pyOnUnsubscribe 1 [0] 11 = ⟨11, "UNSUBACK", 0, "Unsubscribed Successfully"⟩ ∧
    pyOnUnsubscribe 1 [0] 11 = pyOnUnsubscribe 2 [135] 11 := by
  have h := unsubscribe_no_correlation_id
  exact ⟨h.1 [(5, [(mw_topic ++ "abc".toList, 0)])] (.ok ["ab".toList, "B".toList]) mw_topic
      (fun _ => (0, 9)) (fun _ => ""),
    h.2.1 [(5, [(mw_topic ++ "abc".toList, 0)])] ["ab".toList, "B".toList] mw_topic
      (fun _ => (0, 9)) (fun _ => "") (by decide) (by decide) (by decide),
    (h.2.2 1 2 [0] [135] 11).1, (h.2.2 1 2 [0] [135] 11).2⟩

end BridgePy
